import Mathlib

/-!
# Verification of the marker-front reconciliation core

Shallow embedding of `src/lib/db.ts` (the MarkerStore and GeoMath layers of
the marker map application) together with a model of the vote-processing
endpoint described in the README and the specification.

The store keeps markers in a JSON file.  We model the file as a `DbFile`
state: the file may be missing, hold unparsable content, or hold a list of
markers.  The nondeterministic inputs of the TypeScript code — `Date.now()`
and the random component of a generated id — enter the embedding as explicit
parameters (`newId`, `now`).

Coordinates are embedded as rationals and the haversine distance function is
passed as a parameter to the store queries, so that every store-level and
engine-level theorem holds for the actual real-valued `calculateDistance` as
a special case while remaining executable on concrete inputs.  The formula
of `calculateDistance` itself is embedded over the reals in a separate
section and compared with the specification's formula.
-/

namespace MarkerFront

/-- Marker status as in the `Marker` interface of `db.ts`:
`status: 'green' | 'red'`. -/
inductive Status where
  | green
  | red
deriving DecidableEq, Repr

/-- The `Marker` record of `db.ts`:
`{ id: string; latitude: number; longitude: number; status; timestamp: number }`. -/
structure Marker where
  id : String
  latitude : ℚ
  longitude : ℚ
  status : Status
  timestamp : Nat
deriving DecidableEq, Repr

/-- State of the database file `data/markers.json`: absent, present but not
parsable as JSON, or a parsed list of markers. -/
inductive DbFile where
  | missing
  | corrupt
  | ok (markers : List Marker)
deriving DecidableEq, Repr

/-- `getMarkers` from `db.ts`: read the file and `JSON.parse` it; any failure
(missing file, unparsable content) is caught and yields `[]`. -/
def getMarkers : DbFile → List Marker
  | .missing => []
  | .corrupt => []
  | .ok markers => markers

/-- `saveMarkers` from `db.ts`: overwrite the file with the serialized list. -/
def saveMarkers (markers : List Marker) : DbFile :=
  .ok markers

/-- `addMarker` from `db.ts`: read the current markers, build a new marker
from the given latitude/longitude/status plus a generated id and the current
time, push it at the end and save.  The generated id
(`Date.now().toString() + Math.random().toString(36).substr(2, 9)`) and the
timestamp (`Date.now()`) are environment inputs, so they are parameters. -/
def addMarker (db : DbFile) (latitude longitude : ℚ) (status : Status)
    (newId : String) (now : Nat) : Marker × DbFile :=
  let markers := getMarkers db
  let newMarker : Marker :=
    { id := newId, latitude := latitude, longitude := longitude,
      status := status, timestamp := now }
  (newMarker, saveMarkers (markers ++ [newMarker]))

/-- `removeMarker` from `db.ts`: filter out every marker with the given id;
if nothing was filtered out, report `false` without writing, otherwise save
the filtered list and report `true`. -/
def removeMarker (db : DbFile) (id : String) : Bool × DbFile :=
  let markers := getMarkers db
  let filtered := markers.filter (fun m => m.id ≠ id)
  if filtered.length = markers.length then
    (false, db)
  else
    (true, saveMarkers filtered)

/-- `findRedMarkersInRadius` from `db.ts`: keep the markers whose status is
red, then keep those whose distance from the query point is at most
`radiusMeters`.  The distance function used by the code is
`calculateDistance`; it enters here as the parameter `dist`. -/
def findRedMarkersInRadius (dist : ℚ → ℚ → ℚ → ℚ → ℚ) (db : DbFile)
    (latitude longitude radiusMeters : ℚ) : List Marker :=
  let markers := getMarkers db
  let redMarkers := markers.filter (fun m => m.status = Status.red)
  redMarkers.filter (fun m =>
    dist latitude longitude m.latitude m.longitude ≤ radiusMeters)

/-- `MATCH_RADIUS_MIN` of the specification: 150 meters. -/
def MATCH_RADIUS_MIN : ℚ := 150

/-- `MATCH_RADIUS_MAX` of the specification: 300 meters. -/
def MATCH_RADIUS_MAX : ℚ := 300

/-- Modelled from the spec: coordinate validation of the vote-processing
endpoint (the API route is not among the provided sources).  "Coordinates
outside valid latitude/longitude domain → reject with `InvalidInput`"; the
valid domain is latitude in [-90, 90] and longitude in [-180, 180]. -/
def validCoordinates (latitude longitude : ℚ) : Bool :=
  decide (-90 ≤ latitude) && decide (latitude ≤ 90) &&
    decide (-180 ≤ longitude) && decide (longitude ≤ 180)

/-- Lexicographic comparison used to pick the clearing target: `x` beats
`best` when it is strictly closer, or equally close with a smaller id. -/
def betterCandidate (dist : ℚ → ℚ → ℚ → ℚ → ℚ) (latitude longitude : ℚ)
    (x best : Marker) : Bool :=
  decide (dist latitude longitude x.latitude x.longitude <
      dist latitude longitude best.latitude best.longitude) ||
    (decide (dist latitude longitude x.latitude x.longitude =
        dist latitude longitude best.latitude best.longitude) &&
      decide (x.id.data < best.id.data))

/-- Modelled from the spec: "select the single closest qualifying red marker
(tie-break: lowest marker id, for determinism)". -/
def selectClosest (dist : ℚ → ℚ → ℚ → ℚ → ℚ) (latitude longitude : ℚ) :
    List Marker → Option Marker
  | [] => none
  | m :: rest =>
      some (rest.foldl
        (fun best x =>
          if betterCandidate dist latitude longitude x best then x else best) m)

/-- Modelled from the spec: the candidate set of a green vote, "markers of
the opposing color class within `[MATCH_RADIUS_MIN, MATCH_RADIUS_MAX]`
meters of the vote location".  The upper bound is the store query
`findRedMarkersInRadius` (inclusive, `distance <= radiusMeters` in the
source); the lower bound is the engine-side inclusive cutoff at 150 m. -/
def candidateRedMarkers (dist : ℚ → ℚ → ℚ → ℚ → ℚ) (db : DbFile)
    (latitude longitude : ℚ) : List Marker :=
  (findRedMarkersInRadius dist db latitude longitude MATCH_RADIUS_MAX).filter
    (fun m => MATCH_RADIUS_MIN ≤ dist latitude longitude m.latitude m.longitude)

/-- Result of processing one vote. -/
inductive VoteOutcome where
  | created (marker : Marker)
  | cleared (removedId : String)
  | invalidInput
deriving DecidableEq, Repr

/-- Modelled from the spec: the `POST /api/markers` handler
(ReconciliationEngine); the API route file is not among the provided
sources.  Per README and §4.3: reject out-of-domain coordinates; for a green
vote with a red marker in the [150, 300] m band, remove the closest such
marker (ties broken by lowest id) and create nothing; otherwise create a new
marker at the exact vote coordinates with status equal to the vote color. -/
def processVote (dist : ℚ → ℚ → ℚ → ℚ → ℚ) (db : DbFile)
    (latitude longitude : ℚ) (color : Status) (newId : String) (now : Nat) :
    VoteOutcome × DbFile :=
  if validCoordinates latitude longitude = false then
    (.invalidInput, db)
  else
    match color with
    | .green =>
        match selectClosest dist latitude longitude
            (candidateRedMarkers dist db latitude longitude) with
        | some c =>
            let r := removeMarker db c.id
            (.cleared c.id, r.2)
        | none =>
            let r := addMarker db latitude longitude .green newId now
            (.created r.1, r.2)
    | .red =>
        let r := addMarker db latitude longitude .red newId now
        (.created r.1, r.2)

/-- A vote as submitted by a client: coordinates and a color. -/
structure Vote where
  latitude : ℚ
  longitude : ℚ
  color : Status
deriving DecidableEq, Repr

/-- Replay a sequence of votes; each vote carries the id string and
timestamp the environment produced for it. -/
def runVotes (dist : ℚ → ℚ → ℚ → ℚ → ℚ) :
    List (Vote × String × Nat) → DbFile → DbFile
  | [], db => db
  | (v, newId, now) :: rest, db =>
      runVotes dist rest
        (processVote dist db v.latitude v.longitude v.color newId now).2

/-! ## GeoMath: the haversine distance formula over the reals -/

/-- `toRad` from `db.ts`: `degrees * (Math.PI / 180)`. -/
noncomputable def toRad (degrees : ℝ) : ℝ :=
  degrees * (Real.pi / 180)

open scoped Classical in
/-- `Math.atan2 y x`: the angle of the point `(x, y)`, in `(-π, π]`. -/
noncomputable def atan2 (y x : ℝ) : ℝ :=
  if 0 < x then Real.arctan (y / x)
  else if x < 0 ∧ 0 ≤ y then Real.arctan (y / x) + Real.pi
  else if x < 0 ∧ y < 0 then Real.arctan (y / x) - Real.pi
  else if x = 0 ∧ 0 < y then Real.pi / 2
  else if x = 0 ∧ y < 0 then -(Real.pi / 2)
  else 0

/-- `calculateDistance` from `db.ts`, transcribed line by line:
Earth radius `R = 6371000`, `a` the haversine of the central angle,
`c = 2 * atan2(sqrt a, sqrt (1 - a))`, result `R * c`. -/
noncomputable def calculateDistance (lat1 lon1 lat2 lon2 : ℝ) : ℝ :=
  let R : ℝ := 6371000
  let dLat := toRad (lat2 - lat1)
  let dLon := toRad (lon2 - lon1)
  let a :=
    Real.sin (dLat / 2) * Real.sin (dLat / 2) +
      Real.cos (toRad lat1) * Real.cos (toRad lat2) *
        Real.sin (dLon / 2) * Real.sin (dLon / 2)
  let c := 2 * atan2 (Real.sqrt a) (Real.sqrt (1 - a))
  R * c

/-- The specification's contract for `distanceMeters`, written from its
words: the haversine great-circle formula
`R * 2 * atan2(sqrt a, sqrt (1 - a))` with
`a = sin²(Δlat/2) + cos(lat1)·cos(lat2)·sin²(Δlon/2)`, angles converted
from degrees to radians and `R = 6,371,000` m. -/
noncomputable def distanceMetersSpec (lat1 lon1 lat2 lon2 : ℝ) : ℝ :=
  let a :=
    Real.sin (toRad (lat2 - lat1) / 2) ^ 2 +
      Real.cos (toRad lat1) * Real.cos (toRad lat2) *
        Real.sin (toRad (lon2 - lon1) / 2) ^ 2
  6371000 * 2 * atan2 (Real.sqrt a) (Real.sqrt (1 - a))

/-! ## Helper functions for concrete witnesses -/

/-- A distance function that is constant, used to exercise the engine on
concrete inputs. -/
def constDist (q : ℚ) : ℚ → ℚ → ℚ → ℚ → ℚ :=
  fun _ _ _ _ => q

/-- Sample red marker with id "a". -/
def redMarkerA : Marker :=
  { id := "a", latitude := 2, longitude := 2, status := Status.red, timestamp := 0 }

/-- Sample red marker with id "b". -/
def redMarkerB : Marker :=
  { id := "b", latitude := 1, longitude := 1, status := Status.red, timestamp := 0 }

/-- Sample green marker with id "x". -/
def greenMarkerX : Marker :=
  { id := "x", latitude := 0, longitude := 0, status := Status.green, timestamp := 0 }

/-- Sample red marker with id "r" used as an out-of-band candidate. -/
def redMarkerFar : Marker :=
  { id := "r", latitude := 5, longitude := 5, status := Status.red, timestamp := 0 }

/-! ## Store lemmas -/

theorem mem_findRedMarkersInRadius (dist : ℚ → ℚ → ℚ → ℚ → ℚ) (db : DbFile)
    (latitude longitude radiusMeters : ℚ) (m : Marker) :
    m ∈ findRedMarkersInRadius dist db latitude longitude radiusMeters ↔
      m ∈ getMarkers db ∧ m.status = Status.red ∧
        dist latitude longitude m.latitude m.longitude ≤ radiusMeters := by
  simp [findRedMarkersInRadius, List.mem_filter, and_assoc]
  tauto

theorem mem_candidateRedMarkers (dist : ℚ → ℚ → ℚ → ℚ → ℚ) (db : DbFile)
    (latitude longitude : ℚ) (m : Marker) :
    m ∈ candidateRedMarkers dist db latitude longitude ↔
      m ∈ getMarkers db ∧ m.status = Status.red ∧
        MATCH_RADIUS_MIN ≤ dist latitude longitude m.latitude m.longitude ∧
        dist latitude longitude m.latitude m.longitude ≤ MATCH_RADIUS_MAX := by
  simp [candidateRedMarkers, List.mem_filter, mem_findRedMarkersInRadius, and_assoc]
  tauto

theorem removeMarker_fst_false_iff (db : DbFile) (id : String) :
    (removeMarker db id).1 = false ↔ ∀ m ∈ getMarkers db, m.id ≠ id := by
  simp only [removeMarker]
  split
  · rename_i h
    rw [List.filter_length_eq_length] at h
    simpa using h
  · rename_i h
    rw [List.filter_length_eq_length] at h
    simpa using h

theorem removeMarker_fail_unchanged (db : DbFile) (id : String)
    (h : (removeMarker db id).1 = false) : (removeMarker db id).2 = db := by
  simp only [removeMarker] at h ⊢
  split at h
  · rename_i hl
    simp only [removeMarker, if_pos hl]
  · simp at h

theorem removeMarker_success_filters (db : DbFile) (id : String)
    (h : (removeMarker db id).1 = true) :
    getMarkers (removeMarker db id).2 =
      (getMarkers db).filter (fun m => m.id ≠ id) := by
  simp only [removeMarker] at h ⊢
  split at h
  · simp at h
  · rename_i hl
    rw [if_neg hl]
    rfl

theorem getMarkers_addMarker (db : DbFile) (latitude longitude : ℚ)
    (status : Status) (newId : String) (now : Nat) :
    getMarkers (addMarker db latitude longitude status newId now).2 =
      getMarkers db ++
        [{ id := newId, latitude := latitude, longitude := longitude,
           status := status, timestamp := now }] := by
  simp [addMarker, saveMarkers, getMarkers]

/-! ## Closest-marker selection -/

/-- `m` does not beat `c` in the closest-marker selection: `c` is at most as
far from the vote point as `m`, and on equal distance `m` does not have a
strictly lower id. -/
def notBeats (dist : ℚ → ℚ → ℚ → ℚ → ℚ) (latitude longitude : ℚ)
    (m c : Marker) : Prop :=
  dist latitude longitude c.latitude c.longitude ≤
      dist latitude longitude m.latitude m.longitude ∧
    (dist latitude longitude m.latitude m.longitude =
        dist latitude longitude c.latitude c.longitude →
      ¬ m.id.data < c.id.data)

theorem notBeats_refl (dist : ℚ → ℚ → ℚ → ℚ → ℚ) (latitude longitude : ℚ)
    (m : Marker) : notBeats dist latitude longitude m m :=
  ⟨le_refl _, fun _ => lt_irrefl _⟩

theorem notBeats_trans (dist : ℚ → ℚ → ℚ → ℚ → ℚ) (latitude longitude : ℚ)
    {a b c : Marker} (hab : notBeats dist latitude longitude a b)
    (hbc : notBeats dist latitude longitude b c) :
    notBeats dist latitude longitude a c := by
  obtain ⟨hab1, hab2⟩ := hab
  obtain ⟨hbc1, hbc2⟩ := hbc
  refine ⟨le_trans hbc1 hab1, fun heq hlt => ?_⟩
  have hb : dist latitude longitude b.latitude b.longitude =
      dist latitude longitude c.latitude c.longitude :=
    le_antisymm (heq ▸ hab1) hbc1
  have ha : dist latitude longitude a.latitude a.longitude =
      dist latitude longitude b.latitude b.longitude := by
    rw [hb]; exact heq
  have h1 : b.id.data ≤ a.id.data := le_of_not_lt (hab2 ha)
  have h2 : c.id.data ≤ b.id.data := le_of_not_lt (hbc2 hb)
  exact absurd hlt (not_lt_of_le (le_trans h2 h1))

theorem betterCandidate_false_iff (dist : ℚ → ℚ → ℚ → ℚ → ℚ)
    (latitude longitude : ℚ) (x b : Marker) :
    betterCandidate dist latitude longitude x b = false ↔
      notBeats dist latitude longitude x b := by
  simp only [betterCandidate, notBeats, Bool.or_eq_false_iff,
    Bool.and_eq_false_iff, decide_eq_false_iff_not, not_lt]
  constructor
  · rintro ⟨h1, h2 | h3⟩
    · exact ⟨h1, fun heq => absurd heq h2⟩
    · exact ⟨h1, fun _ => h3⟩
  · rintro ⟨h1, h2⟩
    by_cases heq : dist latitude longitude x.latitude x.longitude =
        dist latitude longitude b.latitude b.longitude
    · exact ⟨h1, Or.inr (h2 heq)⟩
    · exact ⟨h1, Or.inl heq⟩

theorem betterCandidate_true_notBeats (dist : ℚ → ℚ → ℚ → ℚ → ℚ)
    (latitude longitude : ℚ) (x b : Marker)
    (h : betterCandidate dist latitude longitude x b = true) :
    notBeats dist latitude longitude b x := by
  simp only [betterCandidate, Bool.or_eq_true, Bool.and_eq_true,
    decide_eq_true_eq] at h
  rcases h with h | ⟨heq, hid⟩
  · exact ⟨le_of_lt h, fun habs => absurd habs (ne_of_gt (habs ▸ h))⟩
  · exact ⟨le_of_eq heq, fun _ => asymm hid⟩

theorem foldl_select_spec (dist : ℚ → ℚ → ℚ → ℚ → ℚ) (latitude longitude : ℚ)
    (l : List Marker) (b : Marker) :
    (l.foldl (fun best x =>
        if betterCandidate dist latitude longitude x best then x else best) b = b ∨
      l.foldl (fun best x =>
        if betterCandidate dist latitude longitude x best then x else best) b ∈ l) ∧
      ∀ m, (m = b ∨ m ∈ l) →
        notBeats dist latitude longitude m
          (l.foldl (fun best x =>
            if betterCandidate dist latitude longitude x best then x else best) b) := by
  induction l generalizing b with
  | nil =>
      refine ⟨Or.inl rfl, fun m hm => ?_⟩
      simp only [List.foldl_nil]
      rcases hm with rfl | hm
      · exact notBeats_refl dist latitude longitude m
      · simp at hm
  | cons x t ih =>
      simp only [List.foldl_cons]
      obtain ⟨ihmem, ihbeats⟩ :=
        ih (if betterCandidate dist latitude longitude x b then x else b)
      constructor
      · rcases ihmem with heq | hmem
        · rw [heq]
          by_cases hb : betterCandidate dist latitude longitude x b = true
          · rw [if_pos hb]
            exact Or.inr (List.mem_cons_self x t)
          · rw [if_neg hb]
            exact Or.inl rfl
        · exact Or.inr (List.mem_cons_of_mem x hmem)
      · intro m hm
        have hstep : ∀ u, (u = b ∨ u = x) →
            notBeats dist latitude longitude u
              (if betterCandidate dist latitude longitude x b then x else b) := by
          intro u hu
          by_cases hb : betterCandidate dist latitude longitude x b = true
          · rw [if_pos hb]
            rcases hu with rfl | rfl
            · exact betterCandidate_true_notBeats dist latitude longitude x u hb
            · exact notBeats_refl dist latitude longitude u
          · rw [if_neg hb]
            rcases hu with rfl | rfl
            · exact notBeats_refl dist latitude longitude u
            · exact (betterCandidate_false_iff dist latitude longitude u b).mp
                (Bool.eq_false_iff.mpr hb)
        rcases hm with rfl | hm
        · exact notBeats_trans dist latitude longitude
            (hstep m (Or.inl rfl)) (ihbeats _ (Or.inl rfl))
        · rcases List.mem_cons.mp hm with rfl | hmt
          · exact notBeats_trans dist latitude longitude
              (hstep m (Or.inr rfl)) (ihbeats _ (Or.inl rfl))
          · exact ihbeats m (Or.inr hmt)

theorem selectClosest_spec (dist : ℚ → ℚ → ℚ → ℚ → ℚ) (latitude longitude : ℚ)
    (l : List Marker) (hne : l ≠ []) :
    ∃ c, selectClosest dist latitude longitude l = some c ∧ c ∈ l ∧
      ∀ m ∈ l, notBeats dist latitude longitude m c := by
  match l with
  | [] => exact absurd rfl hne
  | m :: rest =>
      obtain ⟨hmem, hbeats⟩ := foldl_select_spec dist latitude longitude rest m
      refine ⟨_, rfl, ?_, ?_⟩
      · rcases hmem with heq | hmem
        · rw [heq]
          exact List.mem_cons_self m rest
        · exact List.mem_cons_of_mem m hmem
      · intro u hu
        rcases List.mem_cons.mp hu with rfl | hur
        · exact hbeats u (Or.inl rfl)
        · exact hbeats u (Or.inr hur)

/-- When marker ids are pairwise distinct, filtering out the id of a stored
marker removes exactly that marker. -/
theorem filter_ne_eq_erase (l : List Marker) (c : Marker) (hc : c ∈ l)
    (hnd : (l.map Marker.id).Nodup) :
    l.filter (fun m => m.id ≠ c.id) = l.erase c := by
  induction l with
  | nil => simp at hc
  | cons h t ih =>
      simp only [List.map_cons, List.nodup_cons] at hnd
      obtain ⟨hnotin, hndt⟩ := hnd
      by_cases hhc : h = c
      · subst hhc
        rw [List.erase_cons_head]
        rw [List.filter_cons, if_neg (by simp)]
        apply List.filter_eq_self.mpr
        intro a ha
        simp only [decide_eq_true_eq, ne_eq]
        intro haid
        exact hnotin (haid ▸ List.mem_map_of_mem Marker.id ha)
      · have hct : c ∈ t := by
          rcases List.mem_cons.mp hc with h1 | h1
          · exact absurd h1.symm hhc
          · exact h1
        have hid : h.id ≠ c.id := by
          intro he
          exact hnotin (he ▸ List.mem_map_of_mem Marker.id hct)
        rw [List.filter_cons, if_pos (by simpa using hid),
          List.erase_cons_tail (by simpa using hhc), ih hct hndt]

/-- Rejection branch of the engine: out-of-domain coordinates short-circuit
to `invalidInput` with the store untouched. -/
theorem processVote_invalid (dist : ℚ → ℚ → ℚ → ℚ → ℚ) (db : DbFile)
    (latitude longitude : ℚ) (color : Status) (newId : String) (now : Nat)
    (h : validCoordinates latitude longitude = false) :
    processVote dist db latitude longitude color newId now =
      (VoteOutcome.invalidInput, db) := by
  unfold processVote
  rw [h]
  rfl

/-- Appending a marker with a fresh id keeps the stored ids pairwise
distinct. -/
theorem addMarker_preserves_nodup (db : DbFile) (latitude longitude : ℚ)
    (status : Status) (newId : String) (now : Nat)
    (hnodup : ((getMarkers db).map Marker.id).Nodup)
    (hfresh : newId ∉ (getMarkers db).map Marker.id) :
    ((getMarkers (addMarker db latitude longitude status newId now).2).map
      Marker.id).Nodup := by
  rw [getMarkers_addMarker]
  simp only [List.map_append, List.map_cons, List.map_nil]
  simp [List.nodup_append, hnodup, hfresh]

/-- Removal keeps the stored ids pairwise distinct. -/
theorem removeMarker_preserves_nodup (db : DbFile) (id : String)
    (hnodup : ((getMarkers db).map Marker.id).Nodup) :
    ((getMarkers (removeMarker db id).2).map Marker.id).Nodup := by
  cases hb : (removeMarker db id).1
  · rw [removeMarker_fail_unchanged db id hb]
    exact hnodup
  · rw [removeMarker_success_filters db id hb]
    exact List.Nodup.sublist
      (List.Sublist.map Marker.id (List.filter_sublist _)) hnodup

/-- Clearing branch of the engine: a selected candidate is removed. -/
theorem processVote_green_some (dist : ℚ → ℚ → ℚ → ℚ → ℚ) (db : DbFile)
    (latitude longitude : ℚ) (newId : String) (now : Nat) (c : Marker)
    (hv : validCoordinates latitude longitude = true)
    (hsel : selectClosest dist latitude longitude
      (candidateRedMarkers dist db latitude longitude) = some c) :
    processVote dist db latitude longitude Status.green newId now =
      (VoteOutcome.cleared c.id, (removeMarker db c.id).2) := by
  unfold processVote
  rw [hv, if_neg (by simp), hsel]

/-- Creation branch of the engine for a green vote without candidates. -/
theorem processVote_green_none (dist : ℚ → ℚ → ℚ → ℚ → ℚ) (db : DbFile)
    (latitude longitude : ℚ) (newId : String) (now : Nat)
    (hv : validCoordinates latitude longitude = true)
    (hsel : selectClosest dist latitude longitude
      (candidateRedMarkers dist db latitude longitude) = none) :
    processVote dist db latitude longitude Status.green newId now =
      (VoteOutcome.created
        { id := newId, latitude := latitude, longitude := longitude,
          status := Status.green, timestamp := now },
        (addMarker db latitude longitude Status.green newId now).2) := by
  unfold processVote
  rw [hv, if_neg (by simp), hsel]
  rfl

/-- Creation branch of the engine for a red vote. -/
theorem processVote_red (dist : ℚ → ℚ → ℚ → ℚ → ℚ) (db : DbFile)
    (latitude longitude : ℚ) (newId : String) (now : Nat)
    (hv : validCoordinates latitude longitude = true) :
    processVote dist db latitude longitude Status.red newId now =
      (VoteOutcome.created
        { id := newId, latitude := latitude, longitude := longitude,
          status := Status.red, timestamp := now },
        (addMarker db latitude longitude Status.red newId now).2) := by
  unfold processVote
  rw [hv, if_neg (by simp)]
  rfl

/-- The engine's observable behaviour depends on the database file only
through its parsed marker list. -/
theorem processVote_congr (dist : ℚ → ℚ → ℚ → ℚ → ℚ) (db1 db2 : DbFile)
    (latitude longitude : ℚ) (color : Status) (newId : String) (now : Nat)
    (h : getMarkers db1 = getMarkers db2) :
    (processVote dist db1 latitude longitude color newId now).1 =
        (processVote dist db2 latitude longitude color newId now).1 ∧
      getMarkers (processVote dist db1 latitude longitude color newId now).2 =
        getMarkers (processVote dist db2 latitude longitude color newId now).2 := by
  have hcand : candidateRedMarkers dist db1 latitude longitude =
      candidateRedMarkers dist db2 latitude longitude := by
    unfold candidateRedMarkers findRedMarkersInRadius
    rw [h]
  have hremove : ∀ id : String,
      getMarkers (removeMarker db1 id).2 = getMarkers (removeMarker db2 id).2 := by
    intro id
    simp only [removeMarker]
    rw [h]
    split
    · exact h
    · rfl
  by_cases hv : validCoordinates latitude longitude = false
  · rw [processVote_invalid dist db1 latitude longitude color newId now hv,
      processVote_invalid dist db2 latitude longitude color newId now hv]
    exact ⟨rfl, h⟩
  · have hv' : validCoordinates latitude longitude = true :=
      eq_true_of_ne_false hv
    cases color with
    | green =>
        cases hsel : selectClosest dist latitude longitude
            (candidateRedMarkers dist db2 latitude longitude) with
        | none =>
            have hsel1 : selectClosest dist latitude longitude
                (candidateRedMarkers dist db1 latitude longitude) = none := by
              rw [hcand]
              exact hsel
            rw [processVote_green_none dist db1 latitude longitude newId now hv' hsel1,
              processVote_green_none dist db2 latitude longitude newId now hv' hsel]
            refine ⟨rfl, ?_⟩
            rw [getMarkers_addMarker, getMarkers_addMarker, h]
        | some c =>
            have hsel1 : selectClosest dist latitude longitude
                (candidateRedMarkers dist db1 latitude longitude) = some c := by
              rw [hcand]
              exact hsel
            rw [processVote_green_some dist db1 latitude longitude newId now c hv' hsel1,
              processVote_green_some dist db2 latitude longitude newId now c hv' hsel]
            exact ⟨rfl, hremove c.id⟩
    | red =>
        rw [processVote_red dist db1 latitude longitude newId now hv',
          processVote_red dist db2 latitude longitude newId now hv']
        refine ⟨rfl, ?_⟩
        rw [getMarkers_addMarker, getMarkers_addMarker, h]

/-! ## Claim theorems -/

/-- C1: For every green vote with at least one qualifying red marker in
range, exactly one red marker is removed — the single closest qualifying red
marker by distance, with ties broken by lowest marker id — no new marker is
created, and all other markers are left unchanged (the final store is the
original list with exactly the chosen marker erased). -/
theorem green_vote_removes_closest_red (dist : ℚ → ℚ → ℚ → ℚ → ℚ)
    (db : DbFile) (latitude longitude : ℚ) (newId : String) (now : Nat)
    (hvalid : validCoordinates latitude longitude = true)
    (hnodup : ((getMarkers db).map Marker.id).Nodup)
    (hne : candidateRedMarkers dist db latitude longitude ≠ []) :
    ∃ c ∈ candidateRedMarkers dist db latitude longitude,
      (∀ m ∈ candidateRedMarkers dist db latitude longitude,
        dist latitude longitude c.latitude c.longitude ≤
          dist latitude longitude m.latitude m.longitude) ∧
      (∀ m ∈ candidateRedMarkers dist db latitude longitude,
        dist latitude longitude m.latitude m.longitude =
          dist latitude longitude c.latitude c.longitude →
          ¬ m.id.data < c.id.data) ∧
      (processVote dist db latitude longitude Status.green newId now).1 =
        VoteOutcome.cleared c.id ∧
      getMarkers (processVote dist db latitude longitude Status.green newId now).2 =
        (getMarkers db).erase c := by
  obtain ⟨c, hsome, hcmem, hmin⟩ :=
    selectClosest_spec dist latitude longitude _ hne
  have hcstore : c ∈ getMarkers db :=
    ((mem_candidateRedMarkers dist db latitude longitude c).mp hcmem).1
  have hproc : processVote dist db latitude longitude Status.green newId now =
      (VoteOutcome.cleared c.id, (removeMarker db c.id).2) := by
    unfold processVote
    rw [hvalid, if_neg (by simp), hsome]
  have hsucc : (removeMarker db c.id).1 = true := by
    cases hb : (removeMarker db c.id).1
    · exact absurd rfl ((removeMarker_fst_false_iff db c.id).mp hb c hcstore)
    · rfl
  refine ⟨c, hcmem, fun m hm => (hmin m hm).1, fun m hm heq => (hmin m hm).2 heq,
    ?_, ?_⟩
  · rw [hproc]
  · rw [hproc]
    rw [removeMarker_success_filters db c.id hsucc,
      filter_ne_eq_erase _ c hcstore hnodup]

/-- Witness for C1: two red markers both at constant distance 200 m; the tie
is broken towards the lower id "a" and exactly that marker is erased. -/
theorem green_vote_removes_closest_red_witness :
    ∃ c ∈ candidateRedMarkers (constDist 200)
        (DbFile.ok [redMarkerB, redMarkerA]) 0 0,
      (∀ m ∈ candidateRedMarkers (constDist 200)
          (DbFile.ok [redMarkerB, redMarkerA]) 0 0,
        constDist 200 0 0 c.latitude c.longitude ≤
          constDist 200 0 0 m.latitude m.longitude) ∧
      (∀ m ∈ candidateRedMarkers (constDist 200)
          (DbFile.ok [redMarkerB, redMarkerA]) 0 0,
        constDist 200 0 0 m.latitude m.longitude =
          constDist 200 0 0 c.latitude c.longitude →
          ¬ m.id.data < c.id.data) ∧
      (processVote (constDist 200) (DbFile.ok [redMarkerB, redMarkerA]) 0 0
        Status.green "n" 7).1 = VoteOutcome.cleared c.id ∧
      getMarkers (processVote (constDist 200)
        (DbFile.ok [redMarkerB, redMarkerA]) 0 0 Status.green "n" 7).2 =
        (getMarkers (DbFile.ok [redMarkerB, redMarkerA])).erase c :=
  green_vote_removes_closest_red (constDist 200)
    (DbFile.ok [redMarkerB, redMarkerA]) 0 0 "n" 7
    (by decide) (by decide) (by decide)

/-- C2: the candidate set for matching a vote against existing red markers
is the inclusive band [150 m, 300 m]: a red marker qualifies exactly when
its distance from the vote point is at least 150 and at most 300. -/
theorem candidate_band_is_inclusive (dist : ℚ → ℚ → ℚ → ℚ → ℚ) (db : DbFile)
    (latitude longitude : ℚ) (m : Marker) :
    m ∈ candidateRedMarkers dist db latitude longitude ↔
      m ∈ getMarkers db ∧ m.status = Status.red ∧
        150 ≤ dist latitude longitude m.latitude m.longitude ∧
        dist latitude longitude m.latitude m.longitude ≤ 300 :=
  mem_candidateRedMarkers dist db latitude longitude m

/-- C3: `findRedMarkersInRadius` returns exactly the stored markers whose
status is red and whose distance from the query point is at most the given
radius: no marker of another status, none farther than the radius, and no
qualifying red marker omitted. -/
theorem findRedMarkersInRadius_exact (dist : ℚ → ℚ → ℚ → ℚ → ℚ) (db : DbFile)
    (latitude longitude radiusMeters : ℚ) (m : Marker) :
    m ∈ findRedMarkersInRadius dist db latitude longitude radiusMeters ↔
      m ∈ getMarkers db ∧ m.status = Status.red ∧
        dist latitude longitude m.latitude m.longitude ≤ radiusMeters :=
  mem_findRedMarkersInRadius dist db latitude longitude radiusMeters m

/-- C4: a vote with no candidate marker in range creates a new marker at the
exact vote coordinates whose status equals the vote color, and every marker
already in the store is preserved unchanged (the new list is the old list
with the new marker appended). -/
theorem vote_without_candidate_creates_marker (dist : ℚ → ℚ → ℚ → ℚ → ℚ)
    (db : DbFile) (latitude longitude : ℚ) (color : Status) (newId : String)
    (now : Nat)
    (hvalid : validCoordinates latitude longitude = true)
    (hnone : color = Status.green →
      candidateRedMarkers dist db latitude longitude = []) :
    ∃ m : Marker,
      (processVote dist db latitude longitude color newId now).1 =
        VoteOutcome.created m ∧
      m.latitude = latitude ∧ m.longitude = longitude ∧ m.status = color ∧
      getMarkers (processVote dist db latitude longitude color newId now).2 =
        getMarkers db ++ [m] := by
  cases color with
  | green =>
      have hsel : selectClosest dist latitude longitude
          (candidateRedMarkers dist db latitude longitude) = none := by
        rw [hnone rfl]
        rfl
      have hproc : processVote dist db latitude longitude Status.green newId now =
          (VoteOutcome.created
            { id := newId, latitude := latitude, longitude := longitude,
              status := Status.green, timestamp := now },
            (addMarker db latitude longitude Status.green newId now).2) := by
        unfold processVote
        rw [hvalid, if_neg (by simp), hsel]
        rfl
      exact ⟨_, by rw [hproc], rfl, rfl, rfl, by
        rw [hproc, getMarkers_addMarker]⟩
  | red =>
      have hproc : processVote dist db latitude longitude Status.red newId now =
          (VoteOutcome.created
            { id := newId, latitude := latitude, longitude := longitude,
              status := Status.red, timestamp := now },
            (addMarker db latitude longitude Status.red newId now).2) := by
        unfold processVote
        rw [hvalid, if_neg (by simp)]
        rfl
      exact ⟨_, by rw [hproc], rfl, rfl, rfl, by
        rw [hproc, getMarkers_addMarker]⟩

/-- Witness for C4: a green vote over a store with one distant red marker
(constant distance 400 m, outside the band) creates a green marker at the
vote point and keeps the store's markers. -/
theorem vote_without_candidate_creates_marker_witness :
    ∃ m : Marker,
      (processVote (constDist 400) (DbFile.ok [redMarkerFar])
        3 4 Status.green "fresh" 11).1 = VoteOutcome.created m ∧
      m.latitude = 3 ∧ m.longitude = 4 ∧ m.status = Status.green ∧
      getMarkers (processVote (constDist 400) (DbFile.ok [redMarkerFar])
        3 4 Status.green "fresh" 11).2 =
        getMarkers (DbFile.ok [redMarkerFar]) ++ [m] :=
  vote_without_candidate_creates_marker (constDist 400)
    (DbFile.ok [redMarkerFar]) 3 4 Status.green "fresh" 11
    (by decide) (by decide)

/-- C6: `removeMarker` reports `false` (not found) exactly when no stored
marker carries the given id; on that failure the store is unchanged, and on
success the resulting store is the old one with every marker of that id
deleted and all markers with other ids preserved. -/
theorem removeMarker_not_found_iff_absent (db : DbFile) (id : String) :
    ((removeMarker db id).1 = false ↔ ∀ m ∈ getMarkers db, m.id ≠ id) ∧
      ((removeMarker db id).1 = false → (removeMarker db id).2 = db) ∧
      ((removeMarker db id).1 = true →
        getMarkers (removeMarker db id).2 =
          (getMarkers db).filter (fun m => m.id ≠ id)) :=
  ⟨removeMarker_fst_false_iff db id,
    removeMarker_fail_unchanged db id,
    removeMarker_success_filters db id⟩

/-- Witness for C6: instantiation at a one-marker store and a present id. -/
theorem removeMarker_not_found_iff_absent_witness :
    ((removeMarker (DbFile.ok [greenMarkerX]) "x").1 = false ↔
      ∀ m ∈ getMarkers (DbFile.ok [greenMarkerX]), m.id ≠ "x") ∧
      ((removeMarker (DbFile.ok [greenMarkerX]) "x").1 = false →
        (removeMarker (DbFile.ok [greenMarkerX]) "x").2 =
          DbFile.ok [greenMarkerX]) ∧
      ((removeMarker (DbFile.ok [greenMarkerX]) "x").1 = true →
        getMarkers (removeMarker (DbFile.ok [greenMarkerX]) "x").2 =
          (getMarkers (DbFile.ok [greenMarkerX])).filter
            (fun m => m.id ≠ "x")) :=
  removeMarker_not_found_iff_absent (DbFile.ok [greenMarkerX]) "x"

/-- C8: a vote whose coordinates fall outside the valid latitude/longitude
domain is rejected with `invalidInput` and the store is left untouched. -/
theorem invalid_coordinates_vote_rejected (dist : ℚ → ℚ → ℚ → ℚ → ℚ)
    (db : DbFile) (latitude longitude : ℚ) (color : Status) (newId : String)
    (now : Nat)
    (hinvalid : validCoordinates latitude longitude = false) :
    processVote dist db latitude longitude color newId now =
      (VoteOutcome.invalidInput, db) :=
  processVote_invalid dist db latitude longitude color newId now hinvalid

/-- Witness for C8: latitude 91 is out of domain; the vote is rejected and
the store is unchanged. -/
theorem invalid_coordinates_vote_rejected_witness :
    processVote (constDist 200) (DbFile.ok [greenMarkerX])
        91 0 Status.green "n" 3 =
      (VoteOutcome.invalidInput, DbFile.ok [greenMarkerX]) :=
  invalid_coordinates_vote_rejected (constDist 200)
    (DbFile.ok [greenMarkerX]) 91 0 Status.green "n" 3 (by decide)

/-- C10: `getMarkers` is total at the public interface: a missing database
file and an unparsable file both yield the empty list, and a parsed file
yields its markers; no failure escapes to the caller. -/
theorem getMarkers_total_interface :
    getMarkers DbFile.missing = [] ∧ getMarkers DbFile.corrupt = [] ∧
      ∀ markers : List Marker, getMarkers (DbFile.ok markers) = markers :=
  ⟨rfl, rfl, fun _ => rfl⟩

/-- C5: `calculateDistance` computes exactly the haversine great-circle
formula of the specification, with the fixed Earth radius 6,371,000 m and
degree-to-radian conversion, and it is deterministic and pure: equal inputs
always yield equal outputs. -/
theorem calculateDistance_is_haversine (lat1 lon1 lat2 lon2 : ℝ) :
    calculateDistance lat1 lon1 lat2 lon2 = distanceMetersSpec lat1 lon1 lat2 lon2 ∧
      ∀ lat1' lon1' lat2' lon2' : ℝ,
        lat1 = lat1' → lon1 = lon1' → lat2 = lat2' → lon2 = lon2' →
          calculateDistance lat1 lon1 lat2 lon2 =
            calculateDistance lat1' lon1' lat2' lon2' := by
  constructor
  · show (6371000 : ℝ) *
        (2 * atan2
          (Real.sqrt (Real.sin (toRad (lat2 - lat1) / 2) * Real.sin (toRad (lat2 - lat1) / 2) +
            Real.cos (toRad lat1) * Real.cos (toRad lat2) *
              Real.sin (toRad (lon2 - lon1) / 2) * Real.sin (toRad (lon2 - lon1) / 2)))
          (Real.sqrt (1 - (Real.sin (toRad (lat2 - lat1) / 2) * Real.sin (toRad (lat2 - lat1) / 2) +
            Real.cos (toRad lat1) * Real.cos (toRad lat2) *
              Real.sin (toRad (lon2 - lon1) / 2) * Real.sin (toRad (lon2 - lon1) / 2))))) = _
    have ha :
        Real.sin (toRad (lat2 - lat1) / 2) * Real.sin (toRad (lat2 - lat1) / 2) +
          Real.cos (toRad lat1) * Real.cos (toRad lat2) *
            Real.sin (toRad (lon2 - lon1) / 2) * Real.sin (toRad (lon2 - lon1) / 2) =
        Real.sin (toRad (lat2 - lat1) / 2) ^ 2 +
          Real.cos (toRad lat1) * Real.cos (toRad lat2) *
            Real.sin (toRad (lon2 - lon1) / 2) ^ 2 := by
      ring
    rw [ha]
    show _ = (6371000 : ℝ) * 2 * atan2 _ _
    ring
  · intro lat1' lon1' lat2' lon2' h1 h2 h3 h4
    rw [h1, h2, h3, h4]

/-- Witness for C5: instantiation of the formula equality and of
determinism at the all-zero input. -/
theorem calculateDistance_is_haversine_witness :
    calculateDistance 0 0 0 0 = distanceMetersSpec 0 0 0 0 ∧
      calculateDistance 0 0 0 0 = calculateDistance 0 0 0 0 :=
  ⟨(calculateDistance_is_haversine 0 0 0 0).1,
    (calculateDistance_is_haversine 0 0 0 0).2 0 0 0 0 rfl rfl rfl rfl⟩

/-- C7 counterexample: `addMarker` uses the environment-supplied id
(`Date.now()` plus a random suffix in the source) without checking it
against the store, so two creations whose environments produce the same
string leave two markers with equal ids: id distinctness is not guaranteed
by the code. -/
theorem marker_creation_can_reuse_ids :
    ¬ ((getMarkers (addMarker
        (addMarker (DbFile.ok []) 0 0 Status.green "x" 0).2
        1 1 Status.red "x" 1).2).map Marker.id).Nodup := by
  decide

/-- C7 as amended: provided the generated id differs from every id already
stored, every vote processed by the engine (creation or removal) preserves
pairwise distinctness of the stored marker ids. -/
theorem processVote_preserves_distinct_ids (dist : ℚ → ℚ → ℚ → ℚ → ℚ)
    (db : DbFile) (latitude longitude : ℚ) (color : Status) (newId : String)
    (now : Nat)
    (hnodup : ((getMarkers db).map Marker.id).Nodup)
    (hfresh : newId ∉ (getMarkers db).map Marker.id) :
    ((getMarkers (processVote dist db latitude longitude color newId now).2).map
      Marker.id).Nodup := by
  by_cases hv : validCoordinates latitude longitude = false
  · rw [processVote_invalid dist db latitude longitude color newId now hv]
    exact hnodup
  · have hv' : validCoordinates latitude longitude = true :=
      eq_true_of_ne_false hv
    cases color with
    | green =>
        cases hsel : selectClosest dist latitude longitude
            (candidateRedMarkers dist db latitude longitude) with
        | none =>
            rw [processVote_green_none dist db latitude longitude newId now hv' hsel]
            exact addMarker_preserves_nodup db latitude longitude Status.green
              newId now hnodup hfresh
        | some c =>
            rw [processVote_green_some dist db latitude longitude newId now c hv' hsel]
            exact removeMarker_preserves_nodup db c.id hnodup
    | red =>
        rw [processVote_red dist db latitude longitude newId now hv']
        exact addMarker_preserves_nodup db latitude longitude Status.red
          newId now hnodup hfresh

/-- Witness for the amended C7: a fresh id keeps the one-marker store's ids
distinct after a red vote. -/
theorem processVote_preserves_distinct_ids_witness :
    ((getMarkers (processVote (constDist 400) (DbFile.ok [greenMarkerX])
      0 0 Status.red "fresh" 5).2).map Marker.id).Nodup :=
  processVote_preserves_distinct_ids (constDist 400) (DbFile.ok [greenMarkerX])
    0 0 Status.red "fresh" 5 (by decide) (by decide)

/-- C9 counterexample: replaying the same single green vote against two
fresh empty stores is not identical including marker ids, because the id is
generated from the clock and a random suffix: with environment id "a" in
one run and "b" in the other, the final marker lists differ. -/
theorem replay_differs_across_environments :
    getMarkers (runVotes (constDist 200)
        [({ latitude := 0, longitude := 0, color := Status.green }, "a", 0)]
        (DbFile.ok [])) ≠
      getMarkers (runVotes (constDist 200)
        [({ latitude := 0, longitude := 0, color := Status.green }, "b", 0)]
        (DbFile.ok [])) := by
  decide

/-- C9 as amended: replaying the identical vote sequence together with the
identical environment-generated ids and timestamps is deterministic — any
two stores holding equal marker lists (in particular any two fresh empty
stores) end with equal marker lists. -/
theorem replay_deterministic_given_ids (dist : ℚ → ℚ → ℚ → ℚ → ℚ)
    (votes : List (Vote × String × Nat)) (db1 db2 : DbFile)
    (h : getMarkers db1 = getMarkers db2) :
    getMarkers (runVotes dist votes db1) = getMarkers (runVotes dist votes db2) := by
  induction votes generalizing db1 db2 with
  | nil => exact h
  | cons v rest ih =>
      obtain ⟨v, newId, now⟩ := v
      simp only [runVotes]
      exact ih _ _
        (processVote_congr dist db1 db2 v.latitude v.longitude v.color
          newId now h).2

/-- Witness for the amended C9: a missing database file and an empty parsed
file are both fresh empty stores; one green vote yields the same final
marker list from either. -/
theorem replay_deterministic_given_ids_witness :
    getMarkers (runVotes (constDist 200)
        [({ latitude := 0, longitude := 0, color := Status.green }, "a", 0)]
        DbFile.missing) =
      getMarkers (runVotes (constDist 200)
        [({ latitude := 0, longitude := 0, color := Status.green }, "a", 0)]
        (DbFile.ok [])) :=
  replay_deterministic_given_ids (constDist 200)
    [({ latitude := 0, longitude := 0, color := Status.green }, "a", 0)]
    DbFile.missing (DbFile.ok []) (by decide)

end MarkerFront
